import Mathlib

/-!
Verification of `src/the_toob/UploaderPage.py` (The-Toob repository).

The module drives a browser-automation session: it locates DOM elements,
fills form fields, toggles radio/checkbox controls and polls an
upload-progress indicator.  We embed the page-interaction methods as pure
Lean functions over an explicit model of the driver's responses: each
point where the Python code asks the browser something (a `wait.until`, a
`driver.find_element`, an attribute read) becomes an input of the Lean
function, and every externally visible action (clicks, key sends, log
calls, crash-report writes, sleeps) is recorded in an event list.
Exceptions become `Except` values.
-/

set_option autoImplicit false

namespace TheToob

/-! ## String helpers mirroring the Python primitives used by the code -/

/-- Python `str.replace(pat, repl)` on character lists: non-overlapping,
left-to-right replacement of every occurrence (for non-empty `pat`).
`fuel` bounds the recursion; every step consumes at least one character,
so `fuel := s.length` never runs out. -/
def pyReplaceAux : Nat → List Char → List Char → List Char → List Char
  | 0, s, _, _ => s
  | _ + 1, [], _, _ => []
  | fuel + 1, c :: rest, pat, repl =>
    if pat ≠ [] ∧ pat.isPrefixOf (c :: rest) then
      repl ++ pyReplaceAux fuel ((c :: rest).drop pat.length) pat repl
    else
      c :: pyReplaceAux fuel rest pat repl

/-- Python `str.replace` lifted to `String`. -/
def pyReplace (s pat repl : String) : String :=
  String.mk (pyReplaceAux s.data.length s.data pat.data repl.data)

/-- Python substring test `needle in hay` on character lists. -/
def containsSub (needle : List Char) : List Char → Bool
  | [] => needle.isEmpty
  | c :: rest => needle.isPrefixOf (c :: rest) || containsSub needle rest

/-- Python `needle in hay` lifted to `String`. -/
def pyContains (hay needle : String) : Bool :=
  containsSub needle.data hay.data

/-- Python `str.lower()` (ASCII case folding, which is all the code's
completion phrases need). -/
def pyLower (s : String) : String :=
  String.mk (s.data.map Char.toLower)

/-- Python slicing `s[:n]` : the first `n` characters. -/
def pyTake (s : String) (n : Nat) : String :=
  String.mk (s.data.take n)

/-- Python `str.split("/")` : split on every slash, keeping empty pieces;
the result is always non-empty. -/
def pySplitSlash : List Char → List (List Char)
  | [] => [[]]
  | c :: rest =>
    match pySplitSlash rest with
    | [] => [[]]
    | h :: t => if c = '/' then [] :: h :: t else (c :: h) :: t

/-- Python `href.split("/")[-1]` : the last slash-separated segment. -/
def lastSegment (s : String) : String :=
  String.mk ((pySplitSlash s.data).getLastD [])

/-- The search performed by `re.search(r"(\d+)%", text)` in
`wait_for_upload_to_complete`: scan left to right; `run` accumulates (in
reverse) the digits immediately preceding the current position.  The first
`%` preceded by at least one digit yields `group(1)`, the maximal digit
run ending just before that `%`. -/
def percentAux : List Char → List Char → Option (List Char)
  | _, [] => none
  | run, c :: rest =>
    if c = '%' then
      if run = [] then percentAux [] rest else some run.reverse
    else if c.isDigit then
      percentAux (c :: run) rest
    else
      percentAux [] rest

/-- `re.search(r"(\d+)%", text)` returning `group(1)`. -/
def percentOf (text : String) : Option String :=
  (percentAux [] text.data).map String.mk

/-! ## Driver model: elements, errors, events -/

/-- The slice of a Selenium `WebElement` that the code reads: its visible
text, the value of its `checked` attribute (`None` in Python becomes
`none`), its `href` attribute, and whether it is displayed.  In Python a
`WebElement` object is always truthy. -/
structure Elem where
  text : String := ""
  checked : Option String := none
  href : Option String := none
  displayed : Bool := true
  deriving DecidableEq, Repr

/-- The exceptions the code can raise or observe. -/
inductive Err where
  /-- `selenium.common.exceptions.TimeoutException` -/
  | timeout : Err
  /-- `NoSuchElementException` from a bare `driver.find_element` -/
  | noSuchElement : Err
  /-- Python `RuntimeError(msg)` -/
  | runtimeError (msg : String) : Err
  /-- Python `AttributeError` (e.g. `None.split`) -/
  | attributeError : Err
  deriving DecidableEq, Repr

/-- Every externally visible action of the page driver. -/
inductive Event where
  /-- `element.click()` on the element found by locator `target` -/
  | click (target : String) : Event
  /-- `driver.execute_script("arguments[0].click();", element)` -/
  | scriptClick (target : String) : Event
  /-- `element.send_keys(keys)` -/
  | sendKeys (target : String) (keys : String) : Event
  | logDebug (msg : String) : Event
  | logWarning (msg : String) : Event
  | logError (msg : String) : Event
  /-- a crash directory `crash/<dirName>` holding the listed files -/
  | saveCrash (dirName : String) (files : List String) : Event
  | sleep (seconds : Nat) : Event
  deriving DecidableEq, Repr

/-- Is the event a click (real or script-synthesised)? -/
def Event.isClickEvent : Event → Bool
  | .click _ => true
  | .scriptClick _ => true
  | _ => false

/-- Is the event a `time.sleep`? -/
def Event.isSleep : Event → Bool
  | .sleep _ => true
  | _ => false

/-- Number of click events in a trace. -/
def countClicks (evs : List Event) : Nat :=
  evs.countP (fun e => e.isClickEvent)

/-! ## Constants

`UploaderPage.py` does `from .Constant import *`; `Constant.py` is not part
of the sources under review, so the identifiers below are modelled from the
spec.  No claim depends on their exact values, only on distinctness where
noted. -/

/-- Modelled from the spec: `Constant.UPLOADING_STATUS_CONTAINER`, the XPath
of the upload progress-status element (`Constant.py` is not under src). -/
def UPLOADING_STATUS_CONTAINER : String := "//span[@class='progress-label']"

/-- Modelled from the spec: `Constant.USER_WAITING_TIME`, the fixed polling
interval in seconds (`Constant.py` is not under src). -/
def USER_WAITING_TIME : Nat := 1

/-- Modelled from the spec: `Constant.ACTION_WAIT_TIME`, the short pause
between field interactions (`Constant.py` is not under src). -/
def ACTION_WAIT_TIME : Nat := 1

/-- Modelled from the spec: `Constant.DONE_BUTTON`, id of the final Done
control (`Constant.py` is not under src). -/
def DONE_BUTTON : String := "done-button"

/-- Modelled from the spec: `Constant.ERROR_CONTAINER`, XPath of the
in-page error dialog (`Constant.py` is not under src). -/
def ERROR_CONTAINER : String := "//div[@class='error-area']"

/-- Modelled from the spec: `Constant.VIDEO_URL_ELEMENT`, XPath of the
URL-bearing anchor (`Constant.py` is not under src). -/
def VIDEO_URL_ELEMENT : String := "//a[@class='video-url-anchor']"

/-- Modelled from the spec: `Constant.ALTERED_CONTENT_YES_RADIO`
(`Constant.py` is not under src); distinct from the No radio. -/
def ALTERED_CONTENT_YES_RADIO : String := "//tp-yt-paper-radio-button[@name='VIDEO_HAS_ALTERED_CONTENT_YES']"

/-- Modelled from the spec: `Constant.ALTERED_CONTENT_NO_RADIO`
(`Constant.py` is not under src); distinct from the Yes radio. -/
def ALTERED_CONTENT_NO_RADIO : String := "//tp-yt-paper-radio-button[@name='VIDEO_HAS_ALTERED_CONTENT_NO']"

namespace Keys

/-- Selenium `Keys.COMMAND`. -/
def COMMAND : String := "\ue03d"

/-- Selenium `Keys.CONTROL`. -/
def CONTROL : String := "\ue009"

/-- Selenium `Keys.BACKSPACE`. -/
def BACKSPACE : String := "\ue003"

/-- Selenium `Keys.ENTER`. -/
def ENTER : String := "\ue007"

end Keys

/-! ## Core helper methods -/

/-- `_save_crash_report(operation_name)`: creates `crash/<op>_<timestamp>/`
with a screenshot and an HTML dump, then logs where the report went.  The
wall-clock timestamp is passed in explicitly. -/
def save_crash_report (operation_name timestamp : String) : List Event :=
  [Event.saveCrash (operation_name ++ "_" ++ timestamp)
      ["crash_screenshot.png", "crash_page.html"],
   Event.logError ("Crash report saved to: crash/" ++ operation_name ++ "_" ++ timestamp)]

/-- The operation name `_find_element` builds for its crash report:
`f"find_element_timeout_{value.replace('//', '').replace('/', '_')[:50]}"`. -/
def findElementOperationName (value : String) : String :=
  "find_element_timeout_" ++ pyTake (pyReplace (pyReplace value "//" "") "/" "_") 50

/-- `_find_element(by, value, condition, timeout)`: the driver's wait is
modelled by `waitResult` — `some e` when the condition was satisfied within
the timeout, `none` when the wait raised `TimeoutException`.  On timeout it
logs the failure, saves a crash report and re-raises. -/
def find_element (waitResult : Option Elem) (value timestamp : String) :
    List Event × Except Err Elem :=
  match waitResult with
  | some e => ([], .ok e)
  | none =>
    ([Event.logError ("TimeoutException while trying to find element: " ++ value)]
       ++ save_crash_report (findElementOperationName value) timestamp,
     .error .timeout)

/-- `_click_if_not_selected(locator, log_message)`: looks the element up
through `_find_element`; if its `checked` attribute is not `None` it only
logs, otherwise it clicks via `execute_script` and logs. -/
def click_if_not_selected (waitResult : Option Elem) (value timestamp log_message : String) :
    List Event × Except Err Unit :=
  match find_element waitResult value timestamp with
  | (evs, .error e) => (evs, .error e)
  | (evs, .ok element) =>
    if element.checked.isSome then
      (evs ++ [Event.logDebug ("'" ++ log_message ++ "' is already selected. No action needed.")],
       .ok ())
    else
      (evs ++ [Event.scriptClick value,
               Event.logDebug ("Successfully selected '" ++ log_message ++ "'")],
       .ok ())

/-! ## Field writer -/

/-- The platform-dependent select-all chord: `Keys.COMMAND + "a"` on
Darwin, `Keys.CONTROL + "a"` elsewhere (`platform.system()` is the
`system` argument). -/
def selectAllChord (system : String) : String :=
  if system = "Darwin" then Keys.COMMAND ++ "a" else Keys.CONTROL ++ "a"

/-- `_clear_field(field)`: click the field, pause, send the platform
select-all chord, pause, send backspace. -/
def clear_field (system field : String) : List Event :=
  [Event.click field,
   Event.sleep ACTION_WAIT_TIME,
   Event.sendKeys field (selectAllChord system),
   Event.sleep ACTION_WAIT_TIME,
   Event.sendKeys field Keys.BACKSPACE]

/-- `_write_in_field(field, text, select_all)`: optionally clear first,
otherwise just click and pause; then send the text. -/
def write_in_field (system field text : String) (select_all : Bool) : List Event :=
  (if select_all then clear_field system field
   else [Event.click field, Event.sleep ACTION_WAIT_TIME])
    ++ [Event.sendKeys field text]

/-! ## Upload progress polling loop -/

/-- Does the lower-cased progress text contain a completion phrase? -/
def isCompletionText (progress_text : String) : Bool :=
  pyContains (pyLower progress_text) "upload complete"
    || pyContains (pyLower progress_text) "checks complete"

/-- Outcome of one iteration of the `while True` loop in
`wait_for_upload_to_complete`. -/
inductive IterOutcome where
  /-- fell through to `time.sleep` and the next iteration -/
  | continueLoop : IterOutcome
  /-- `break` after seeing a completion phrase -/
  | completeBreak : IterOutcome
  /-- `break` in the `except TimeoutException` handler -/
  | timeoutBreak : IterOutcome
  deriving DecidableEq, Repr

/-- One iteration of the polling loop: look the progress element up with
the short timeout (`lookup` is the driver's answer), log either the
percentage or the raw status, break on a completion phrase, otherwise
sleep and continue; a lookup timeout is caught, logged as a warning, and
breaks the loop. -/
def uploadIteration (lookup : Option Elem) (timestamp : String) :
    List Event × IterOutcome :=
  match find_element lookup UPLOADING_STATUS_CONTAINER timestamp with
  | (evs, .error _) =>
    (evs ++ [Event.logWarning "Upload progress element not found. This might indicate an issue."],
     .timeoutBreak)
  | (evs, .ok progress_element) =>
    let progress_text := progress_element.text
    let logEv :=
      match percentOf progress_text with
      | some p => Event.logDebug ("Upload progress: " ++ p ++ "%")
      | none => Event.logDebug ("Upload status: " ++ progress_text)
    if isCompletionText progress_text then
      (evs ++ [logEv, Event.logDebug "Upload and processing finished."], .completeBreak)
    else
      (evs ++ [logEv, Event.sleep USER_WAITING_TIME], .continueLoop)

/-- How the polling loop ended. -/
inductive LoopResult where
  /-- normal return after a completion phrase -/
  | completed : LoopResult
  /-- normal return after the progress element vanished (warning logged) -/
  | abortedNoRaise : LoopResult
  /-- the supplied trace of driver answers ran out while still polling -/
  | stillPolling : LoopResult
  deriving DecidableEq, Repr

/-- The `while True` loop of `wait_for_upload_to_complete`, driven by the
successive answers of the driver to the progress-element lookup.  The
function never raises: both `break` paths return normally. -/
def uploadLoop (lookups : List (Option Elem)) (timestamp : String) :
    List Event × LoopResult :=
  match lookups with
  | [] => ([], .stillPolling)
  | l :: rest =>
    match uploadIteration l timestamp with
    | (evs, .completeBreak) => (evs, .completed)
    | (evs, .timeoutBreak) => (evs, .abortedNoRaise)
    | (evs, .continueLoop) =>
      let (evs2, r) := uploadLoop rest timestamp
      (evs ++ evs2, r)

/-- `wait_for_upload_to_complete()`: initial debug log, then the loop. -/
def wait_for_upload_to_complete (lookups : List (Option Elem)) (timestamp : String) :
    List Event × LoopResult :=
  let (evs, r) := uploadLoop lookups timestamp
  (Event.logDebug "Waiting for the video to finish uploading..." :: evs, r)

/-! ## set_title_and_description -/

/-- `set_title_and_description()`: `textboxesResult` is the outcome of
`wait.until(EC.presence_of_all_elements_located(...))` — `none` when that
wait raised `TimeoutException`, `some tbs` when it returned the list
`tbs`.  Fewer than two textboxes raises `RuntimeError`; any exception in
the `try` body triggers a crash report and is re-raised. -/
def set_title_and_description (textboxesResult : Option (List Elem))
    (title description system timestamp : String) :
    List Event × Except Err Unit :=
  match textboxesResult with
  | none =>
    (save_crash_report "set_title_and_description_error" timestamp, .error .timeout)
  | some textboxes =>
    if textboxes.length < 2 then
      (save_crash_report "set_title_and_description_error" timestamp,
       .error (.runtimeError "Could not find title and description textboxes."))
    else
      let titleEvs := write_in_field system "title_field" title true
        ++ [Event.logDebug ("The video title was set to \"" ++ title ++ "\"")]
      let description2 := pyReplace description "\n" Keys.ENTER
      let descEvs :=
        if description2 ≠ "" then
          write_in_field system "description_field" description2 true
            ++ [Event.logDebug "Description filled."]
        else []
      (titleEvs ++ descEvs, .ok ())

/-! ## set_altered_content -/

/-- `set_altered_content()`: `is_altered` is
`self.metadata.get(Constant.VIDEO_ALTERED_CONTENT)` — `none` when the key
is missing.  Missing key: return immediately, no lookup, no click.
Otherwise toggle the Yes or No radio through `_click_if_not_selected`. -/
def set_altered_content (is_altered : Option Bool) (waitResult : Option Elem)
    (timestamp : String) : List Event × Except Err Unit :=
  match is_altered with
  | none => ([], .ok ())
  | some b =>
    let xpath := if b then ALTERED_CONTENT_YES_RADIO else ALTERED_CONTENT_NO_RADIO
    let log_message := "Altered content: " ++ (if b then "Yes" else "No")
    click_if_not_selected waitResult xpath timestamp log_message

/-! ## get_video_id -/

/-- `get_video_id()`: find the URL-bearing element through
`_find_element` (a timeout propagates), then — since a `WebElement` is
always truthy — return `href.split("/")[-1]`; a `None` href would make
`.split` raise `AttributeError`.  The `return None` branch of the Python
code is unreachable. -/
def get_video_id (waitResult : Option Elem) (timestamp : String) :
    List Event × Except Err (Option String) :=
  match find_element waitResult VIDEO_URL_ELEMENT timestamp with
  | (evs, .error e) => (evs, .error e)
  | (evs, .ok video_url_element) =>
    match video_url_element.href with
    | none => (evs, .error .attributeError)
    | some href => (evs, .ok (some (lastSegment href)))

/-! ## publish_video -/

/-- The body of the `try` block in `publish_video`: a bare
`driver.find_element` for the error dialog (raising `NoSuchElementException`
when absent), then `raise RuntimeError(...)` when the dialog is displayed. -/
def publishErrorCheck (dialogLookup : Option Elem) : Except Err Unit :=
  match dialogLookup with
  | none => .error .noSuchElement
  | some error_dialog =>
    if error_dialog.displayed then
      .error (.runtimeError ("Upload failed with error: " ++ error_dialog.text))
    else
      .ok ()

/-- `publish_video()`: wait (up to 7200 s) for the Done button to become
clickable, run the error-dialog check inside `try: ... except: pass` —
the bare `except` swallows every exception the block raises, including
the `RuntimeError` itself — then click Done and log. -/
def publish_video (doneWaitResult : Option Elem) (dialogLookup : Option Elem)
    (timestamp : String) : List Event × Except Err Unit :=
  match find_element doneWaitResult DONE_BUTTON timestamp with
  | (evs, .error e) => (evs, .error e)
  | (evs, .ok _done_button) =>
    match publishErrorCheck dialogLookup with
    | .error _ =>
      (evs ++ [Event.click DONE_BUTTON, Event.logDebug "Publish button clicked"], .ok ())
    | .ok _ =>
      (evs ++ [Event.click DONE_BUTTON, Event.logDebug "Publish button clicked"], .ok ())

/-! ## Browser text-field semantics

Modelled from the spec: how a browser text field reacts to the driver's
clicks and key sends (spec §8: clearing then typing leaves only the new
text).  The browser itself is not part of the sources under review. -/

/-- A text field's state: its content and whether all of it is currently
selected. -/
structure FieldState where
  content : String := ""
  allSelected : Bool := false
  deriving DecidableEq, Repr

/-- Modelled from the spec: the browser's reaction to one driver event on
a focused text field.  A click deselects; a select-all chord selects the
whole content; backspace deletes the selection (or the last character);
plain text replaces the selection (or appends). -/
def applyFieldEvent (st : FieldState) (ev : Event) : FieldState :=
  match ev with
  | .click _ => { st with allSelected := false }
  | .sendKeys _ ks =>
    if ks = Keys.COMMAND ++ "a" ∨ ks = Keys.CONTROL ++ "a" then
      { st with allSelected := true }
    else if ks = Keys.BACKSPACE then
      if st.allSelected then { content := "", allSelected := false }
      else { content := String.mk st.content.data.dropLast, allSelected := false }
    else if st.allSelected then
      { content := ks, allSelected := false }
    else
      { content := st.content ++ ks, allSelected := false }
  | _ => st

/-- Run a trace of driver events against a field. -/
def runField (st : FieldState) (evs : List Event) : FieldState :=
  evs.foldl applyFieldEvent st

/-! ## Claims -/

/-- C3: for every locator value and timestamp, when the wait times out
`_find_element` re-raises the `TimeoutException` (never swallows it),
saves a crash report — screenshot plus full page HTML — into a directory
named from the operation and the timestamp, and logs the failure. -/
theorem claim_C3 (value timestamp : String) :
    (find_element none value timestamp).2 = .error .timeout
    ∧ Event.saveCrash (findElementOperationName value ++ "_" ++ timestamp)
        ["crash_screenshot.png", "crash_page.html"] ∈ (find_element none value timestamp).1
    ∧ Event.logError ("TimeoutException while trying to find element: " ++ value)
        ∈ (find_element none value timestamp).1 := by
  refine ⟨rfl, ?_, ?_⟩ <;> simp [find_element, save_crash_report]

/-- C4: `_click_if_not_selected` performs at most one click per call:
zero when the element's `checked` attribute is set, one when it is not
(and zero when the lookup fails); two consecutive calls on an
already-checked control produce zero clicks in total, never two. -/
theorem claim_C4 (e : Elem) (lk : Option Elem) (value timestamp log_message : String) :
    countClicks (click_if_not_selected lk value timestamp log_message).1 ≤ 1
    ∧ (e.checked.isSome = true →
        countClicks (click_if_not_selected (some e) value timestamp log_message).1 = 0)
    ∧ (e.checked = none →
        countClicks (click_if_not_selected (some e) value timestamp log_message).1 = 1)
    ∧ (e.checked.isSome = true →
        countClicks ((click_if_not_selected (some e) value timestamp log_message).1
          ++ (click_if_not_selected (some e) value timestamp log_message).1) = 0) := by
  have base : ∀ e2 : Elem,
      countClicks (click_if_not_selected (some e2) value timestamp log_message).1
        = if e2.checked.isSome then 0 else 1 := by
    intro e2
    by_cases h : e2.checked.isSome
      <;> simp [click_if_not_selected, find_element, countClicks, Event.isClickEvent, h]
  refine ⟨?_, ?_, ?_, ?_⟩
  · match lk with
    | some e2 =>
      rw [base e2]
      split <;> omega
    | none =>
      simp [click_if_not_selected, find_element, save_crash_report, countClicks,
        Event.isClickEvent]
  · intro h
    rw [base e, if_pos h]
  · intro h
    rw [base e, if_neg (by simp [h])]
  · intro h
    have hb := base e
    rw [if_pos h] at hb
    simp only [countClicks, List.countP_append] at hb ⊢
    omega

/-- C4 witness: an already-checked control yields zero clicks per call and
zero over two consecutive calls; an unchecked one yields exactly one. -/
theorem claim_C4_witness :
    countClicks (click_if_not_selected (some { checked := some "true" }) "v" "t" "m").1 = 0
    ∧ countClicks ((click_if_not_selected (some { checked := some "true" }) "v" "t" "m").1
        ++ (click_if_not_selected (some { checked := some "true" }) "v" "t" "m").1) = 0
    ∧ countClicks (click_if_not_selected (some { checked := none }) "v" "t" "m").1 = 1 :=
  ⟨(claim_C4 { checked := some "true" } none "v" "t" "m").2.1 rfl,
   (claim_C4 { checked := some "true" } none "v" "t" "m").2.2.2 rfl,
   (claim_C4 { checked := none } none "v" "t" "m").2.2.1 rfl⟩

/-- C5: a progress text containing "upload complete" or "checks complete"
in any letter case makes that iteration break out of the loop with the
complete outcome, and the polling function returns normally with the
completed result, whatever lookups would have followed. -/
theorem claim_C5 (el : Elem) (rest : List (Option Elem)) (timestamp : String)
    (h : isCompletionText el.text = true) :
    (uploadIteration (some el) timestamp).2 = .completeBreak
    ∧ (wait_for_upload_to_complete (some el :: rest) timestamp).2 = .completed := by
  have hiter : (uploadIteration (some el) timestamp).2 = .completeBreak := by
    simp [uploadIteration, find_element, h]
  refine ⟨hiter, ?_⟩
  simp only [wait_for_upload_to_complete, uploadLoop]
  rw [show uploadIteration (some el) timestamp
      = ((uploadIteration (some el) timestamp).1, IterOutcome.completeBreak) from
    Prod.ext rfl hiter]

/-- C5 witness: the text "Upload Complete!" (mixed case) ends the loop in
the completed state. -/
theorem claim_C5_witness :
    (uploadIteration (some { text := "Upload Complete!" }) "t").2 = .completeBreak
    ∧ (wait_for_upload_to_complete [some { text := "Upload Complete!" },
        some { text := "later" }] "t").2 = .completed :=
  claim_C5 { text := "Upload Complete!" } [some { text := "later" }] "t" (by decide)

/-- C6: when the progress-element lookup times out, the polling loop ends
with the non-raising aborted outcome — the caught timeout never escapes —
after logging a warning. -/
theorem claim_C6 (rest : List (Option Elem)) (timestamp : String) :
    (wait_for_upload_to_complete (none :: rest) timestamp).2 = .abortedNoRaise
    ∧ Event.logWarning "Upload progress element not found. This might indicate an issue."
        ∈ (wait_for_upload_to_complete (none :: rest) timestamp).1 := by
  constructor <;>
    simp [wait_for_upload_to_complete, uploadLoop, uploadIteration, find_element,
      save_crash_report]

/-- C2 counterexample: the progress text "upload complete, 100%" contains
the percentage substring "100%", yet the iteration that reads it does not
continue to the next iteration — it breaks out of the loop — refuting the
claim that every text containing "NN%" makes the loop continue. -/
theorem claim_C2_counterexample :
    percentOf "upload complete, 100%" = some "100"
    ∧ (uploadIteration (some { text := "upload complete, 100%" }) "t").2 ≠ .continueLoop
    ∧ (uploadIteration (some { text := "upload complete, 100%" }) "t").2 = .completeBreak := by
  refine ⟨by decide, ?_, by decide⟩
  have h2 : (uploadIteration (some { text := "upload complete, 100%" }) "t").2
      = IterOutcome.completeBreak := by decide
  rw [h2]
  decide

/-- C2 amended: an iteration reading a text that contains "NN%" logs NN
and, unless the text also contains a completion phrase, continues to the
next iteration; a text with neither a percentage nor a completion phrase
logs the raw text and continues. -/
theorem claim_C2 (el : Elem) (rest : List (Option Elem)) (timestamp p : String) :
    (percentOf el.text = some p →
      Event.logDebug ("Upload progress: " ++ p ++ "%")
        ∈ (uploadIteration (some el) timestamp).1)
    ∧ (percentOf el.text = some p → isCompletionText el.text = false →
        (uploadIteration (some el) timestamp).2 = .continueLoop)
    ∧ (percentOf el.text = none → isCompletionText el.text = false →
        (uploadIteration (some el) timestamp).2 = .continueLoop
        ∧ Event.logDebug ("Upload status: " ++ el.text)
            ∈ (uploadIteration (some el) timestamp).1)
    ∧ (isCompletionText el.text = false →
        (uploadLoop (some el :: rest) timestamp).2 = (uploadLoop rest timestamp).2) := by
  refine ⟨?_, ?_, ?_, ?_⟩
  · intro hp
    by_cases hc : isCompletionText el.text
      <;> simp [uploadIteration, find_element, hp, hc]
  · intro hp hc
    simp [uploadIteration, find_element, hp, hc]
  · intro hp hc
    constructor <;> simp [uploadIteration, find_element, hp, hc]
  · intro hc
    have hiter : (uploadIteration (some el) timestamp).2 = .continueLoop := by
      cases hp : percentOf el.text <;> simp [uploadIteration, find_element, hp, hc]
    simp only [uploadLoop]
    rw [show uploadIteration (some el) timestamp
        = ((uploadIteration (some el) timestamp).1, IterOutcome.continueLoop) from
      Prod.ext rfl hiter]

/-- C2 witness: a pure percentage text logs its digits and continues; a
plain status text logs the raw text and continues. -/
theorem claim_C2_witness :
    (Event.logDebug "Upload progress: 32%"
        ∈ (uploadIteration (some { text := "Uploading 32% done" }) "t").1)
    ∧ (uploadIteration (some { text := "Uploading 32% done" }) "t").2 = .continueLoop
    ∧ ((uploadIteration (some { text := "Processing HD version" }) "t").2 = .continueLoop
        ∧ Event.logDebug "Upload status: Processing HD version"
            ∈ (uploadIteration (some { text := "Processing HD version" }) "t").1)
    ∧ (uploadLoop [some { text := "Uploading 32% done" }] "t").2 = (uploadLoop [] "t").2 :=
  ⟨(claim_C2 { text := "Uploading 32% done" } [] "t" "32").1 (by decide),
   (claim_C2 { text := "Uploading 32% done" } [] "t" "32").2.1 (by decide) (by decide),
   (claim_C2 { text := "Processing HD version" } [] "t" "32").2.2.1 (by decide) (by decide),
   (claim_C2 { text := "Uploading 32% done" } [] "t" "32").2.2.2 (by decide)⟩

/-- C1: with the Done button clickable and the in-page error dialog
present and displayed, the error check does raise a `RuntimeError`
carrying the dialog's text — but the surrounding bare `except: pass`
swallows it, `publish_video` returns normally and the Done button is
clicked anyway, contradicting the claim that the error reaches the caller
and the publish step is aborted. -/
theorem claim_C1_code_bug :
    publishErrorCheck (some { text := "Processing failed", displayed := true })
      = .error (.runtimeError "Upload failed with error: Processing failed")
    ∧ (publish_video (some {}) (some { text := "Processing failed", displayed := true }) "t").2
      = .ok ()
    ∧ Event.click DONE_BUTTON
        ∈ (publish_video (some {}) (some { text := "Processing failed", displayed := true }) "t").1 := by
  refine ⟨rfl, rfl, ?_⟩
  simp [publish_video, find_element, publishErrorCheck, DONE_BUTTON]

/-- C7: writing with clear requested issues, in order, a click on the
field, the platform select-all chord, a backspace, then the new text
(sleeps aside); replaying that trace against the modelled browser field
turns a field containing "old text" into one containing only "new text". -/
theorem claim_C7 (system field text : String) :
    ((write_in_field system field text true).filter (fun e => !e.isSleep))
      = [Event.click field, Event.sendKeys field (selectAllChord system),
         Event.sendKeys field Keys.BACKSPACE, Event.sendKeys field text]
    ∧ runField { content := "old text", allSelected := false }
        (write_in_field system field "new text" true)
      = { content := "new text", allSelected := false } := by
  constructor
  · simp [write_in_field, clear_field, Event.isSleep]
  · by_cases h : system = "Darwin"
    · subst h
      rfl
    · simp only [write_in_field, clear_field, selectAllChord, if_neg h]
      rfl

/-- C8: when the textbox wait returns fewer than two textboxes,
`set_title_and_description` raises a `RuntimeError` — not a timeout —
and a crash report is saved before the error reaches the caller. -/
theorem claim_C8 (textboxes : List Elem) (title description system timestamp : String)
    (h : textboxes.length < 2) :
    (set_title_and_description (some textboxes) title description system timestamp).2
      = .error (.runtimeError "Could not find title and description textboxes.")
    ∧ Event.saveCrash ("set_title_and_description_error" ++ "_" ++ timestamp)
        ["crash_screenshot.png", "crash_page.html"]
      ∈ (set_title_and_description (some textboxes) title description system timestamp).1 := by
  constructor <;>
    simp [set_title_and_description, save_crash_report, if_pos h]

/-- C8 witness: a single textbox triggers the runtime error and the crash
report. -/
theorem claim_C8_witness :
    (set_title_and_description (some [{}]) "T" "D" "Linux" "ts").2
      = .error (.runtimeError "Could not find title and description textboxes.")
    ∧ Event.saveCrash "set_title_and_description_error_ts"
        ["crash_screenshot.png", "crash_page.html"]
      ∈ (set_title_and_description (some [{}]) "T" "D" "Linux" "ts").1 :=
  claim_C8 [{}] "T" "D" "Linux" "ts" (by decide)

/-- C9 counterexample: when the lookup of the URL-bearing element times
out, `get_video_id` does not return `none` — the `TimeoutException`
propagates to the caller — refuting the claim that a failed extraction
yields `none`. -/
theorem claim_C9_counterexample :
    (get_video_id none "t").2 = .error .timeout
    ∧ (get_video_id none "t").2 ≠ .ok none := by
  have h : (get_video_id none "t").2 = Except.error Err.timeout := rfl
  refine ⟨h, ?_⟩
  rw [h]
  intro hcontra
  exact Except.noConfusion hcontra

/-- C9 amended: when the element is found and bears an `href`,
`get_video_id` returns the last '/'-separated segment of that `href`;
when the lookup times out, the timeout error propagates to the caller
(after a crash report) rather than the function returning `none`. -/
theorem claim_C9 (el : Elem) (href timestamp : String) (h : el.href = some href) :
    (get_video_id (some el) timestamp).2 = .ok (some (lastSegment href))
    ∧ (get_video_id none timestamp).2 = .error .timeout
    ∧ Event.saveCrash (findElementOperationName VIDEO_URL_ELEMENT ++ "_" ++ timestamp)
        ["crash_screenshot.png", "crash_page.html"] ∈ (get_video_id none timestamp).1 := by
  refine ⟨?_, rfl, ?_⟩
  · simp [get_video_id, find_element, h]
  · simp [get_video_id, find_element, save_crash_report]

/-- C9 witness: an anchor with href "https://youtu.be/abc123" yields the
identifier "abc123". -/
theorem claim_C9_witness :
    (get_video_id (some { href := some "https://youtu.be/abc123" }) "t").2
      = .ok (some "abc123")
    ∧ (get_video_id none "t").2 = .error .timeout :=
  ⟨(claim_C9 { href := some "https://youtu.be/abc123" } "https://youtu.be/abc123" "t" rfl).1,
   (claim_C9 { href := some "https://youtu.be/abc123" } "https://youtu.be/abc123" "t" rfl).2.1⟩

/-- C10: a missing altered-content key produces no event at all (no
lookup, no click); an explicit `false` script-clicks the No radio of an
unchecked control; an explicit `true` script-clicks the Yes radio. -/
theorem claim_C10 (e : Elem) (lk : Option Elem) (timestamp : String) :
    set_altered_content none lk timestamp = ([], .ok ())
    ∧ (e.checked = none →
        (set_altered_content (some false) (some e) timestamp).1
          = [Event.scriptClick ALTERED_CONTENT_NO_RADIO,
             Event.logDebug "Successfully selected 'Altered content: No'"])
    ∧ (e.checked = none →
        (set_altered_content (some true) (some e) timestamp).1
          = [Event.scriptClick ALTERED_CONTENT_YES_RADIO,
             Event.logDebug "Successfully selected 'Altered content: Yes'"]) := by
  refine ⟨rfl, ?_, ?_⟩ <;>
    · intro h
      simp [set_altered_content, click_if_not_selected, find_element, h]

/-- C10 witness: the three metadata shapes — absent, explicitly false,
explicitly true — at a concrete unchecked element. -/
theorem claim_C10_witness :
    set_altered_content none none "t" = ([], .ok ())
    ∧ (set_altered_content (some false) (some {}) "t").1
        = [Event.scriptClick ALTERED_CONTENT_NO_RADIO,
           Event.logDebug "Successfully selected 'Altered content: No'"]
    ∧ (set_altered_content (some true) (some {}) "t").1
        = [Event.scriptClick ALTERED_CONTENT_YES_RADIO,
           Event.logDebug "Successfully selected 'Altered content: Yes'"] :=
  ⟨(claim_C10 {} none "t").1, (claim_C10 {} none "t").2.1 rfl, (claim_C10 {} none "t").2.2 rfl⟩

end TheToob
